import Mathlib

/-!
Verification of the Lute2Anki term extractor (`src/database.py`,
class `LuteDatabase`) against its specification.

The Python module builds an SQL SELECT over the Lute store and runs it
through sqlite3.  We embed it shallowly:

* the SQL text produced by `build_sql_query` is represented structurally:
  the list of selected column expressions, whether the two
  `wordparents` self-joins (`wp_child`, `wp_parent`) are present in the
  FROM clause, and the list of WHERE conditions (`SqlCond`), each of
  which renders to the exact SQL fragment of the source (`condSql`);
* dates are abstracted as `Nat`: `cutoff_date.isoformat()` produces an
  ISO string and sqlite compares such strings lexicographically, which
  on dates is order-isomorphic to the natural order;
* sqlite execution is modelled by `runQuery`: it fails at prepare time
  (as sqlite does, with "no such column") when a WHERE condition
  references the `wp_child`/`wp_parent` aliases while the FROM clause
  does not introduce them, and otherwise performs the LEFT JOIN chain
  of the source query and filters by the conjunction of the conditions;
* `connect` is translated path by path; the externally visible effects
  (connection opened/closed, `showInfo` notifications, `log_error`
  calls) are recorded in the returned `ConnectResult`.  The Python
  function catches every exception, so the model is total.
-/

/-- A row of the `words` table.  Fields are the columns consumed by the
query; `WoTranslation` is nullable in the store, the others consumed
here are modelled as present. -/
structure WordRow where
  WoID : Nat
  WoText : String
  WoTranslation : Option String
  WoLgID : Nat
  WoCreated : Nat
  WoStatusChanged : Nat
  WoTextLC : String
  WoStatus : Nat
  WoRomanization : Option String
  WoTokenCount : Nat
deriving DecidableEq, Repr

/-- A row of the `wordimages` table. -/
structure WordImageRow where
  WiWoID : Nat
  WiSource : Option String
deriving DecidableEq, Repr

/-- A row of the `wordtags` link table. -/
structure WordTagRow where
  WtWoID : Nat
  WtTgID : Nat
deriving DecidableEq, Repr

/-- A row of the `tags` table. -/
structure TagRow where
  TgID : Nat
  TgText : String
  TgComment : Option String
deriving DecidableEq, Repr

/-- A row of the `wordparents` self-link table. -/
structure WordParentRow where
  WpWoID : Nat
  WpParentWoID : Nat
deriving DecidableEq, Repr

/-- A row of the `languages` table; `SELECT * FROM languages` is used
with `lang[0]` (the id) and `lang[1]` (the name). -/
structure LanguageRow where
  LgID : Nat
  LgName : String
deriving DecidableEq, Repr

/-- The contents of a lute.db store: the six tables the module reads. -/
structure Store where
  words : List WordRow
  wordimages : List WordImageRow
  wordtags : List WordTagRow
  tags : List TagRow
  wordparents : List WordParentRow
  languages : List LanguageRow
deriving DecidableEq, Repr

/-- The WHERE conditions `build_sql_query` can emit, one constructor per
textual fragment of the source. -/
inductive SqlCond where
  | translationNotNull
  | parentChain
  | createdGe (cutoff_date : Nat)
  | translationNonEmpty
  | statusLe5
  | statusGe1
deriving DecidableEq, Repr

/-- The SQL fragment each condition renders to in the source.  The
cutoff date is abstracted as a `Nat` (see module comment). -/
def condSql : SqlCond → String
  | .translationNotNull => "WoTranslation IS NOT NULL"
  | .parentChain =>
      "(wp_child.WpParentWoID IS NULL OR wp_parent.WpParentWoID IS NOT NULL)"
  | .createdGe c => "WoCreated >= \"" ++ toString c ++ "\""
  | .translationNonEmpty => "WoTranslation <> ''"
  | .statusLe5 => "WoStatus <= 5"
  | .statusGe1 => "1 <= WoStatus"

/-- Whether a condition references the `wp_child` / `wp_parent` join
aliases. -/
def condMentionsWp : SqlCond → Bool
  | .parentChain => true
  | _ => false

/-- The structural content of the SQL string `build_sql_query` returns:
the SELECT list, whether the FROM clause introduces the two
`wordparents` joins, and the WHERE conditions in order. -/
structure SqlQuery where
  selectFields : List String
  hasWpJoins : Bool
  whereConds : List SqlCond
deriving DecidableEq, Repr

/-- The WHERE clause as assembled by the source:
`"WHERE " + " AND ".join(where_conditions)`. -/
def SqlQuery.whereClause (q : SqlQuery) : String :=
  "WHERE " ++ String.intercalate " AND " (q.whereConds.map condSql)

/-- SELECT list of the `parents_only` branch (13 expressions, including
`w.WoTokenCount`). -/
def select_fields_parents : List String :=
  ["w.WoText", "w.WoTranslation", "w.WoLgID", "w.WoCreated", "t.TgText",
   "w.WoStatusChanged", "w.WoTextLC", "w.WoID", "w.WoStatus",
   "w.WoRomanization", "w.WoTokenCount", "wi.WiSource", "t.TgComment"]

/-- SELECT list of the default branch (12 expressions, without
`WoTokenCount`). -/
def select_fields_default : List String :=
  ["WoText", "WoTranslation", "WoLgID", "WoCreated", "TgText",
   "WoStatusChanged", "WoTextLC", "WoID", "WoStatus", "WoRomanization",
   "WiSource", "TgComment"]

/-- `LuteDatabase.build_sql_query`: chooses the base query from
`parents_only`, then appends WHERE conditions: the three unconditional
ones, `WoTranslation <> ''` unless `empty_translation`,
`WoStatus <= 5` unless `include_WKI`, and `1 <= WoStatus` since
`include_unknown` is hard-coded to `False`. -/
def build_sql_query (parents_only empty_translation include_WKI : Bool)
    (cutoff_date : Nat) : SqlQuery :=
  let base : List String × Bool :=
    if parents_only then (select_fields_parents, true)
    else (select_fields_default, false)
  let conds0 : List SqlCond :=
    [.translationNotNull, .parentChain, .createdGe cutoff_date]
  let conds1 := if !empty_translation then
    conds0 ++ [.translationNonEmpty] else conds0
  let conds2 := if !include_WKI then conds1 ++ [.statusLe5] else conds1
  let include_unknown := false
  let conds3 := if !include_unknown then conds2 ++ [.statusGe1] else conds2
  { selectFields := base.1, hasWpJoins := base.2, whereConds := conds3 }

/-- One row of the joined relation the query ranges over: the `words`
row and the (possibly NULL) rows contributed by each LEFT JOIN. -/
structure JRow where
  w : WordRow
  wi : Option WordImageRow
  wt : Option WordTagRow
  t : Option TagRow
  wp_child : Option WordParentRow
  wp_parent : Option WordParentRow
deriving DecidableEq, Repr

/-- LEFT JOIN: every left row appears; unmatched rows pair with `none`. -/
def leftJoinOpt {α β : Type} (xs : List α) (ys : List β)
    (onb : α → β → Bool) : List (α × Option β) :=
  xs.flatMap fun a =>
    match ys.filter (fun b => onb a b) with
    | [] => [(a, none)]
    | ms => ms.map fun b => (a, some b)

/-- The LEFT JOIN chain of the `parents_only` base query:
`words w LEFT JOIN wordimages wi ON w.WoID = wi.WiWoID
LEFT JOIN wordtags wt ON wi.WiWoID = wt.WtWoID
LEFT JOIN tags t ON wt.WtTgID = t.TgID
LEFT JOIN wordparents wp_child ON w.WoID = wp_child.WpWoID
LEFT JOIN wordparents wp_parent ON w.WoID = wp_parent.WpParentWoID`.
A NULL on the left side of a join condition (SQL three-valued logic)
never matches. -/
def joinedRows (store : Store) : List JRow :=
  let j1 := leftJoinOpt store.words store.wordimages
    (fun w wi => w.WoID == wi.WiWoID)
  let j2 := leftJoinOpt j1 store.wordtags (fun p wt =>
    match p.2 with
    | some wi => wi.WiWoID == wt.WtWoID
    | none => false)
  let j3 := leftJoinOpt j2 store.tags (fun p t =>
    match p.2 with
    | some wt => wt.WtTgID == t.TgID
    | none => false)
  let j4 := leftJoinOpt j3 store.wordparents
    (fun p wp => p.1.1.1.WoID == wp.WpWoID)
  let j5 := leftJoinOpt j4 store.wordparents
    (fun p wp => p.1.1.1.1.WoID == wp.WpParentWoID)
  j5.map fun p =>
    { w := p.1.1.1.1.1, wi := p.1.1.1.1.2, wt := p.1.1.1.2,
      t := p.1.1.2, wp_child := p.1.2, wp_parent := p.2 }

/-- Truth value of a WHERE condition on a joined row.  SQL three-valued
logic: a comparison with NULL is not true, so a NULL translation fails
`WoTranslation <> ''`; `x IS NULL` on an absent joined row is true. -/
def evalCond (r : JRow) : SqlCond → Bool
  | .translationNotNull => r.w.WoTranslation.isSome
  | .parentChain => r.wp_child.isNone || r.wp_parent.isSome
  | .createdGe c => c ≤ r.w.WoCreated
  | .translationNonEmpty =>
      match r.w.WoTranslation with
      | some s => s != ""
      | none => false
  | .statusLe5 => r.w.WoStatus ≤ 5
  | .statusGe1 => 1 ≤ r.w.WoStatus

/-- sqlite execution of a query built by `build_sql_query`.  sqlite
rejects the statement at prepare time ("no such column") when a WHERE
condition references the `wp_child`/`wp_parent` aliases and the FROM
clause does not introduce them; otherwise the joined rows satisfying
every WHERE condition are returned.  (Every query produced by
`build_sql_query` contains the `parentChain` condition, so the
successful branch is only reached with the joins present.) -/
def runQuery (store : Store) (q : SqlQuery) : Except String (List JRow) :=
  if q.whereConds.any condMentionsWp && !q.hasWpJoins then
    .error "no such column: wp_child.WpParentWoID"
  else
    .ok ((joinedRows store).filter fun r => q.whereConds.all (evalCond r))

/-- Python's `str.endswith`, used for the `self.db_path.endswith("lute.db")`
gate: a suffix test on the character sequence. -/
def strEndsWith (s suffix : String) : Bool :=
  List.isSuffixOf suffix.data s.data

/-- What `connect` returns together with its externally visible
effects: whether a connection was opened / closed before returning, and
how many `showInfo` notifications and `log_error` calls were made. -/
structure ConnectResult where
  terms : List JRow
  languages : List (Nat × String)
  opened : Bool
  closed : Bool
  showInfoCount : Nat
  logErrorCount : Nat
deriving DecidableEq, Repr

/-- `LuteDatabase.connect`, path by path.  `db_path` is the
constructor argument; `store` is the contents of the file at that path;
`connOutcome` is the outcome of `sqlite3.connect` (which may raise).
The function never raises: the invalid-path branch returns before the
`try`, and the `except Exception` branch converts any connection or
query failure into `([], [])`.  `conn.close()` is executed only on the
branch that completes both queries. -/
def connect (db_path : String) (store : Store)
    (connOutcome : Except String Unit)
    (parents_only empty_translation include_WKI : Bool)
    (cutoff_date : Nat) : ConnectResult :=
  if !(strEndsWith db_path "lute.db") then
    { terms := [], languages := [], opened := false, closed := false,
      showInfoCount := 1, logErrorCount := 1 }
  else
    match connOutcome with
    | .error _ =>
      { terms := [], languages := [], opened := false, closed := false,
        showInfoCount := 1, logErrorCount := 1 }
    | .ok _ =>
      match runQuery store
          (build_sql_query parents_only empty_translation include_WKI
            cutoff_date) with
      | .error _ =>
        { terms := [], languages := [], opened := true, closed := false,
          showInfoCount := 1, logErrorCount := 1 }
      | .ok terms =>
        let used_lg_ids := (terms.map fun t => t.w.WoLgID).dedup
        let languages :=
          (store.languages.filter fun lang =>
            used_lg_ids.contains lang.LgID).map
            fun lang => (lang.LgID, lang.LgName)
        { terms := terms, languages := languages, opened := true,
          closed := true, showInfoCount := 0, logErrorCount := 0 }

/-- Python evaluates a default parameter value once, when the `def` is
executed (module import), not at each call.  This models a call of
`build_sql_query` with every optional argument omitted: the three
booleans default to `False` and `cutoff_date` defaults to
`module_load_date`, the value `date.today()` had when the module was
loaded — not the date current at call time. -/
def build_sql_query_defaulted (module_load_date : Nat) : SqlQuery :=
  build_sql_query false false false module_load_date

/-! ### Concrete test data

The three-term store of the specification's scenario: statuses 1, 5, 6,
translations "a", "", "c", all created on the same day (day 100 models
"today"), one language. -/

/-- A `words` row with the given id, text, translation and status,
created on day 100 in language 1. -/
def mkWord (id : Nat) (txt : String) (tr : Option String)
    (st : Nat) : WordRow :=
  { WoID := id, WoText := txt, WoTranslation := tr, WoLgID := 1,
    WoCreated := 100, WoStatusChanged := 100, WoTextLC := txt,
    WoStatus := st, WoRomanization := none, WoTokenCount := 1 }

/-- The scenario store of the specification: 3 terms with statuses
1, 5, 6 and translations "a", "", "c", all created today (day 100). -/
def scenarioStore : Store :=
  { words := [mkWord 1 "t1" (some "a") 1, mkWord 2 "t2" (some "") 5,
              mkWord 3 "t3" (some "c") 6],
    wordimages := [], wordtags := [], tags := [], wordparents := [],
    languages := [{ LgID := 1, LgName := "English" }] }

/-- The joined row produced by the scenario store for the status-1 term
(no image, tag or parent rows exist, so every joined column is NULL). -/
def scenarioRow1 : JRow :=
  { w := mkWord 1 "t1" (some "a") 1, wi := none, wt := none, t := none,
    wp_child := none, wp_parent := none }

/-- The joined row produced by the scenario store for the status-6
term. -/
def scenarioRow6 : JRow :=
  { w := mkWord 3 "t3" (some "c") 6, wi := none, wt := none, t := none,
    wp_child := none, wp_parent := none }

/-! ### Helper lemmas -/

/-- The WHERE-condition list of `build_sql_query`, in closed form.  It
does not depend on `parents_only`. -/
theorem whereConds_eq (p e w : Bool) (c : Nat) :
    (build_sql_query p e w c).whereConds =
      [SqlCond.translationNotNull, SqlCond.parentChain,
        SqlCond.createdGe c]
      ++ (if !e then [SqlCond.translationNonEmpty] else [])
      ++ (if !w then [SqlCond.statusLe5] else [])
      ++ [SqlCond.statusGe1] := by
  cases p <;> cases e <;> cases w <;> rfl

/-- The FROM clause has the `wp_child`/`wp_parent` joins exactly when
`parents_only` is set. -/
theorem hasWpJoins_eq (p e w : Bool) (c : Nat) :
    (build_sql_query p e w c).hasWpJoins = p := by
  cases p <;> cases e <;> cases w <;> rfl

/-- A successful `runQuery` returns the joined rows filtered by the
conjunction of the WHERE conditions. -/
theorem runQuery_ok_inv (store : Store) (q : SqlQuery) (ts : List JRow)
    (h : runQuery store q = Except.ok ts) :
    ts = (joinedRows store).filter
      fun r => q.whereConds.all (evalCond r) := by
  unfold runQuery at h
  split at h
  · exact absurd h (by simp)
  · exact (Except.ok.inj h).symm

/-- A pair in a LEFT JOIN result has its left component in the left
input. -/
theorem mem_leftJoinOpt_fst {α β : Type} (xs : List α) (ys : List β)
    (onb : α → β → Bool) (pr : α × Option β)
    (hp : pr ∈ leftJoinOpt xs ys onb) : pr.1 ∈ xs := by
  unfold leftJoinOpt at hp
  rw [List.mem_flatMap] at hp
  obtain ⟨a, ha, hmem⟩ := hp
  revert hmem
  split
  · intro hmem
    rw [List.mem_singleton] at hmem
    subst hmem
    exact ha
  · intro hmem
    rw [List.mem_map] at hmem
    obtain ⟨b, _, rfl⟩ := hmem
    exact ha

/-- Every joined row carries a `words` row of the store. -/
theorem mem_joinedRows_words (store : Store) (r : JRow)
    (hr : r ∈ joinedRows store) : r.w ∈ store.words := by
  simp only [joinedRows, List.mem_map] at hr
  obtain ⟨pr, hp, rfl⟩ := hr
  exact mem_leftJoinOpt_fst _ _ _ _
    (mem_leftJoinOpt_fst _ _ _ _
      (mem_leftJoinOpt_fst _ _ _ _
        (mem_leftJoinOpt_fst _ _ _ _
          (mem_leftJoinOpt_fst _ _ _ _ hp))))

/-- Any term returned by `connect` is a joined row of the store that
satisfies every WHERE condition of the query that was built. -/
theorem connect_terms_mem (path : String) (store : Store)
    (co : Except String Unit) (p e w : Bool) (c : Nat) (t : JRow)
    (ht : t ∈ (connect path store co p e w c).terms) :
    t ∈ joinedRows store ∧
      ∀ cd ∈ (build_sql_query p e w c).whereConds,
        evalCond t cd = true := by
  unfold connect at ht
  split at ht
  · simp at ht
  · split at ht
    · simp at ht
    · split at ht
      · simp at ht
      · rename_i ts heq
        simp only [] at ht
        have hts := runQuery_ok_inv _ _ _ heq
        subst hts
        rw [List.mem_filter] at ht
        refine ⟨ht.1, fun cd hcd => ?_⟩
        exact List.all_eq_true.mp ht.2 cd hcd

/-! ### Claims -/

/-- C1: For every Filter Options value, `build_sql_query` produces a
query whose WHERE clause is the AND-conjunction of its filter
conditions (a row of a successfully executed query is retained exactly
when every condition holds) and always contains (1) translation is not
null, (2) the parent-chain condition, included regardless of
`parents_only`, and (3) creation date ≥ cutoff date, inclusive; the
flag never changes the condition list. -/
theorem C1_filter_conjunction (p e w : Bool) (c : Nat) :
    (SqlCond.translationNotNull ∈ (build_sql_query p e w c).whereConds
     ∧ SqlCond.parentChain ∈ (build_sql_query p e w c).whereConds
     ∧ SqlCond.createdGe c ∈ (build_sql_query p e w c).whereConds)
    ∧ (build_sql_query true e w c).whereConds =
        (build_sql_query false e w c).whereConds
    ∧ ∀ (store : Store) (ts : List JRow),
        runQuery store (build_sql_query p e w c) = Except.ok ts →
        ∀ r, r ∈ ts ↔ r ∈ joinedRows store ∧
          ∀ cd ∈ (build_sql_query p e w c).whereConds,
            evalCond r cd = true := by
  refine ⟨⟨?_, ?_, ?_⟩, ?_, ?_⟩
  · rw [whereConds_eq]; simp
  · rw [whereConds_eq]; simp
  · rw [whereConds_eq]; simp
  · rw [whereConds_eq, whereConds_eq]
  · intro store ts hok r
    have hts := runQuery_ok_inv _ _ _ hok
    subst hts
    rw [List.mem_filter, List.all_eq_true]

/-- C1 witness: the scenario store with `parents_only` set: the query
succeeds with exactly the status-1 row, which is a joined row
satisfying every WHERE condition. -/
theorem C1_witness :
    (runQuery scenarioStore (build_sql_query true false false 100) =
      Except.ok [scenarioRow1])
    ∧ (scenarioRow1 ∈ [scenarioRow1] ↔
        scenarioRow1 ∈ joinedRows scenarioStore ∧
          ∀ cd ∈ (build_sql_query true false false 100).whereConds,
            evalCond scenarioRow1 cd = true) :=
  ⟨by rfl, (C1_filter_conjunction true false false 100).2.2 scenarioStore
    [scenarioRow1] (by rfl) scenarioRow1⟩

/-- C2: on the specification's scenario (3 terms, statuses 1/5/6,
translations "a"/""/"c", all created today) with default options the
specification expects exactly the status-1 term back; the code instead
builds a query whose WHERE clause references the absent
`wp_child`/`wp_parent` aliases, sqlite rejects it, and `connect`
returns `([], [])` with one error log and one user notification,
leaving the connection open. -/
theorem C2_scenario_eval :
    connect "lute.db" scenarioStore (Except.ok ()) false false false 100 =
      { terms := [], languages := [], opened := true, closed := false,
        showInfoCount := 1, logErrorCount := 1 } := by decide

/-- C3: with `parents_only = false`, for every store contents and
options, the built query's WHERE conditions mention the
`wp_child`/`wp_parent` aliases while the FROM clause does not introduce
them, executing the query fails, and `connect` returns the empty pair
regardless of path and connection outcome. -/
theorem C3_default_branch_always_fails (store : Store) (path : String)
    (co : Except String Unit) (e w : Bool) (c : Nat) :
    ((build_sql_query false e w c).whereConds.any condMentionsWp = true
      ∧ (build_sql_query false e w c).hasWpJoins = false)
    ∧ (∃ msg, runQuery store (build_sql_query false e w c) =
        Except.error msg)
    ∧ (connect path store co false e w c).terms = []
    ∧ (connect path store co false e w c).languages = [] := by
  have hany : (build_sql_query false e w c).whereConds.any
      condMentionsWp = true := by
    rw [whereConds_eq]
    cases e <;> cases w <;> rfl
  have hwp : (build_sql_query false e w c).hasWpJoins = false :=
    hasWpJoins_eq false e w c
  have hrun : runQuery store (build_sql_query false e w c) =
      Except.error "no such column: wp_child.WpParentWoID" := by
    unfold runQuery
    rw [hany, hwp]
    rfl
  refine ⟨⟨hany, hwp⟩, ⟨_, hrun⟩, ?_, ?_⟩ <;>
  · unfold connect
    split
    · rfl
    · split
      · rfl
      · rw [hrun]

/-- C4: `connect` never propagates an exception: an invalid path
short-circuits before any connection is opened, with one user
notification and one error log and result `([], [])`; a failure while
opening the connection, or while executing the query, is caught and
likewise yields one notification, one error log and `([], [])`. -/
theorem C4_no_propagation (path : String) (store : Store)
    (co : Except String Unit) (p e w : Bool) (c : Nat) :
    (strEndsWith path "lute.db" = false →
      connect path store co p e w c =
        { terms := [], languages := [], opened := false, closed := false,
          showInfoCount := 1, logErrorCount := 1 })
    ∧ (∀ msg, strEndsWith path "lute.db" = true →
        co = Except.error msg →
      connect path store co p e w c =
        { terms := [], languages := [], opened := false, closed := false,
          showInfoCount := 1, logErrorCount := 1 })
    ∧ (∀ msg, strEndsWith path "lute.db" = true → co = Except.ok () →
        runQuery store (build_sql_query p e w c) = Except.error msg →
      connect path store co p e w c =
        { terms := [], languages := [], opened := true, closed := false,
          showInfoCount := 1, logErrorCount := 1 }) := by
  refine ⟨fun h => ?_, fun msg h1 h2 => ?_, fun msg h1 h2 h3 => ?_⟩
  · simp [connect, h]
  · subst h2; simp [connect, h1]
  · subst h2; simp [connect, h1, h3]

/-- C4 witness: the invalid-path scenario `/tmp/notlute.sqlite`. -/
theorem C4_witness :
    strEndsWith "/tmp/notlute.sqlite" "lute.db" = false ∧
    connect "/tmp/notlute.sqlite" scenarioStore (Except.ok ()) true false
        false 100 =
      { terms := [], languages := [], opened := false, closed := false,
        showInfoCount := 1, logErrorCount := 1 } :=
  ⟨by decide, (C4_no_propagation "/tmp/notlute.sqlite" scenarioStore
    (Except.ok ()) true false false 100).1 (by decide)⟩

/-- Evaluation of `connect` on the branch where both queries execute. -/
theorem connect_ok_eq (path : String) (store : Store) (p e w : Bool)
    (c : Nat) (ts : List JRow)
    (hpath : strEndsWith path "lute.db" = true)
    (hq : runQuery store (build_sql_query p e w c) = Except.ok ts) :
    connect path store (Except.ok ()) p e w c =
      { terms := ts,
        languages := (store.languages.filter fun lang =>
            ((ts.map fun t => t.w.WoLgID).dedup).contains lang.LgID).map
            fun lang => (lang.LgID, lang.LgName),
        opened := true, closed := true,
        showInfoCount := 0, logErrorCount := 0 } := by
  simp [connect, hpath, hq]

/-- The connection-closed flag marks exactly the branch where the path
was valid, the connection opened, and the term query succeeded. -/
theorem connect_closed_inv (path : String) (store : Store)
    (co : Except String Unit) (p e w : Bool) (c : Nat)
    (h : (connect path store co p e w c).closed = true) :
    strEndsWith path "lute.db" = true ∧ co = Except.ok () ∧
      ∃ ts, runQuery store (build_sql_query p e w c) = Except.ok ts := by
  unfold connect at h
  split at h
  · exact absurd h (by simp)
  · rename_i hpath
    rw [Bool.not_eq_true', Bool.not_eq_false] at hpath
    split at h
    · exact absurd h (by simp)
    · rename_i u
      cases u
      split at h
      · exact absurd h (by simp)
      · rename_i ts heq
        exact ⟨hpath, rfl, ts, heq⟩

/-- C5: for every successful extraction (the branch that closes the
connection), under the store's integrity invariants — distinct ids in
the `languages` table and every term's language id present there — the
returned Languages are exactly the distinct language ids of the
returned Terms, each paired with its display name from the store, with
no duplicates and no extraneous entries. -/
theorem C5_languages_exact (path : String) (store : Store)
    (co : Except String Unit) (p e w : Bool) (c : Nat)
    (hnodup : (store.languages.map LanguageRow.LgID).Nodup)
    (hfk : ∀ wr ∈ store.words, ∃ lr ∈ store.languages,
      lr.LgID = wr.WoLgID)
    (hcl : (connect path store co p e w c).closed = true) :
    ((connect path store co p e w c).languages.map Prod.fst).Nodup
    ∧ (∀ l ∈ (connect path store co p e w c).languages,
        ∃ t ∈ (connect path store co p e w c).terms, t.w.WoLgID = l.1)
    ∧ (∀ t ∈ (connect path store co p e w c).terms,
        ∃ l ∈ (connect path store co p e w c).languages,
          l.1 = t.w.WoLgID)
    ∧ (∀ l ∈ (connect path store co p e w c).languages,
        ∃ lr ∈ store.languages, lr.LgID = l.1 ∧ lr.LgName = l.2) := by
  obtain ⟨hpath, hco, ts, hq⟩ :=
    connect_closed_inv path store co p e w c hcl
  subst hco
  rw [connect_ok_eq path store p e w c ts hpath hq]
  refine ⟨?_, ?_, ?_, ?_⟩
  · rw [List.map_map]
    have hsub : ((store.languages.filter fun lang =>
        ((ts.map fun t => t.w.WoLgID).dedup).contains lang.LgID).map
          fun lang => lang.LgID).Sublist
        (store.languages.map fun lang => lang.LgID) :=
      (List.filter_sublist _).map _
    exact hnodup.sublist hsub
  · intro l hl
    rw [List.mem_map] at hl
    obtain ⟨lr, hlr, rfl⟩ := hl
    rw [List.mem_filter] at hlr
    have : lr.LgID ∈ (ts.map fun t => t.w.WoLgID).dedup := by
      have := hlr.2
      simpa [List.contains] using this
    rw [List.mem_dedup, List.mem_map] at this
    obtain ⟨t, ht, hid⟩ := this
    exact ⟨t, ht, hid⟩
  · intro t ht
    have hjoined : t ∈ joinedRows store := by
      have hts := runQuery_ok_inv _ _ _ hq
      subst hts
      exact (List.mem_filter.mp ht).1
    have hw : t.w ∈ store.words := mem_joinedRows_words store t hjoined
    obtain ⟨lr, hlr, hid⟩ := hfk t.w hw
    have hmem : lr ∈ store.languages.filter fun lang =>
        ((ts.map fun t => t.w.WoLgID).dedup).contains lang.LgID := by
      rw [List.mem_filter]
      refine ⟨hlr, ?_⟩
      have : lr.LgID ∈ (ts.map fun t => t.w.WoLgID).dedup := by
        rw [List.mem_dedup, List.mem_map]
        exact ⟨t, ht, hid.symm⟩
      simpa [List.contains] using this
    exact ⟨(lr.LgID, lr.LgName), List.mem_map_of_mem _ hmem, hid⟩
  · intro l hl
    rw [List.mem_map] at hl
    obtain ⟨lr, hlr, rfl⟩ := hl
    exact ⟨lr, (List.mem_filter.mp hlr).1, rfl, rfl⟩

/-- C5 witness: the scenario store with `parents_only` set satisfies
the invariants and succeeds; the Languages result is its single
language paired with the single returned term. -/
theorem C5_witness :
    ((scenarioStore.languages.map LanguageRow.LgID).Nodup
     ∧ (∀ wr ∈ scenarioStore.words, ∃ lr ∈ scenarioStore.languages,
        lr.LgID = wr.WoLgID)
     ∧ (connect "lute.db" scenarioStore (Except.ok ()) true false false
        100).closed = true)
    ∧ (((connect "lute.db" scenarioStore (Except.ok ()) true false false
          100).languages.map Prod.fst).Nodup
      ∧ (∀ l ∈ (connect "lute.db" scenarioStore (Except.ok ()) true false
            false 100).languages,
          ∃ t ∈ (connect "lute.db" scenarioStore (Except.ok ()) true
            false false 100).terms, t.w.WoLgID = l.1)
      ∧ (∀ t ∈ (connect "lute.db" scenarioStore (Except.ok ()) true false
            false 100).terms,
          ∃ l ∈ (connect "lute.db" scenarioStore (Except.ok ()) true
            false false 100).languages, l.1 = t.w.WoLgID)
      ∧ (∀ l ∈ (connect "lute.db" scenarioStore (Except.ok ()) true false
            false 100).languages,
          ∃ lr ∈ scenarioStore.languages,
            lr.LgID = l.1 ∧ lr.LgName = l.2)) :=
  ⟨⟨by decide, by decide, by decide⟩,
    C5_languages_exact "lute.db" scenarioStore (Except.ok ()) true false
      false 100 (by decide) (by decide) (by decide)⟩

/-- C6: no returned term has status 0 (the hard-coded `1 <= WoStatus`
condition), with `include_WKI = false` every returned term has status
at most 5, and with `include_WKI = true` a term of status above 5 can
be returned (the scenario store's status-6 term). -/
theorem C6_status_bounds :
    (∀ (path : String) (store : Store) (co : Except String Unit)
        (p e w : Bool) (c : Nat),
      ∀ t ∈ (connect path store co p e w c).terms,
        1 ≤ t.w.WoStatus ∧ (w = false → t.w.WoStatus ≤ 5))
    ∧ (∃ t ∈ (connect "lute.db" scenarioStore (Except.ok ()) true false
        true 100).terms, 5 < t.w.WoStatus) := by
  constructor
  · intro path store co p e w c t ht
    obtain ⟨-, hconds⟩ :=
      connect_terms_mem path store co p e w c t ht
    rw [whereConds_eq] at hconds
    constructor
    · have h1 := hconds SqlCond.statusGe1 (by simp)
      simpa [evalCond] using h1
    · intro hw
      subst hw
      have h5 := hconds SqlCond.statusLe5 (by simp)
      simpa [evalCond] using h5
  · exact ⟨scenarioRow6, by decide, by decide⟩

/-- C6 witness: the status-1 row of the scenario satisfies both
bounds. -/
theorem C6_witness :
    scenarioRow1 ∈ (connect "lute.db" scenarioStore (Except.ok ()) true
      false false 100).terms
    ∧ (1 ≤ scenarioRow1.w.WoStatus
        ∧ (false = false → scenarioRow1.w.WoStatus ≤ 5)) :=
  ⟨by decide, C6_status_bounds.1 "lute.db" scenarioStore (Except.ok ())
    true false false 100 scenarioRow1 (by decide)⟩

/-- C7: with `empty_translation = false`, every term returned by
`connect` has a translation that is present (not NULL) and non-empty.
-/
theorem C7_nonempty_translation (path : String) (store : Store)
    (co : Except String Unit) (p w : Bool) (c : Nat) :
    ∀ t ∈ (connect path store co p false w c).terms,
      ∃ s, t.w.WoTranslation = some s ∧ s ≠ "" := by
  intro t ht
  obtain ⟨-, hconds⟩ :=
    connect_terms_mem path store co p false w c t ht
  rw [whereConds_eq] at hconds
  have hne := hconds SqlCond.translationNonEmpty (by simp)
  revert hne
  simp only [evalCond]
  cases htr : t.w.WoTranslation with
  | none => intro h; exact absurd h (by simp)
  | some s =>
    intro h
    refine ⟨s, rfl, ?_⟩
    simpa using h

/-- C7 witness: the returned scenario row has the non-empty
translation "a". -/
theorem C7_witness :
    scenarioRow1 ∈ (connect "lute.db" scenarioStore (Except.ok ()) true
      false false 100).terms
    ∧ ∃ s, scenarioRow1.w.WoTranslation = some s ∧ s ≠ "" :=
  ⟨by decide, C7_nonempty_translation "lute.db" scenarioStore
    (Except.ok ()) true false 100 scenarioRow1 (by decide)⟩

/-- C8 counterexample: with default options on the scenario store the
query raises; `connect` opens the connection but returns without
closing it. -/
theorem C8_counterexample :
    (connect "lute.db" scenarioStore (Except.ok ()) false false false
      100).opened = true
    ∧ (connect "lute.db" scenarioStore (Except.ok ()) false false false
      100).closed = false := by decide

/-- C8 amended: the connection is closed before returning exactly on
the branch that completes both queries (no error logged); on the
exception path the opened connection is left unclosed. -/
theorem C8_close_iff_no_error (path : String) (store : Store)
    (co : Except String Unit) (p e w : Bool) (c : Nat)
    (hop : (connect path store co p e w c).opened = true) :
    (connect path store co p e w c).closed = true ↔
      (connect path store co p e w c).logErrorCount = 0 := by
  cases hpath : strEndsWith path "lute.db" with
  | false => simp [connect, hpath] at hop
  | true =>
    cases co with
    | error msg => simp [connect, hpath] at hop
    | ok u =>
      cases u
      cases hq : runQuery store (build_sql_query p e w c) with
      | error msg => simp [connect, hpath, hq]
      | ok ts => simp [connect, hpath, hq]

/-- C8 witness for the amended theorem: a successful run opens and
closes the connection with no error logged. -/
theorem C8_witness :
    (connect "lute.db" scenarioStore (Except.ok ()) true false false
      100).opened = true
    ∧ ((connect "lute.db" scenarioStore (Except.ok ()) true false false
        100).closed = true ↔
      (connect "lute.db" scenarioStore (Except.ok ()) true false false
        100).logErrorCount = 0) :=
  ⟨by decide, C8_close_iff_no_error "lute.db" scenarioStore
    (Except.ok ()) true false false 100 (by decide)⟩

/-- C9 counterexample: the SELECT list is not identical across the
`parents_only` flag: the parents branch selects 13 expressions
including `w.WoTokenCount`, the default branch selects 12 and omits
the token count. -/
theorem C9_counterexample :
    (build_sql_query true false false 0).selectFields ≠
      (build_sql_query false false false 0).selectFields
    ∧ (build_sql_query true false false 0).selectFields.length = 13
    ∧ (build_sql_query false false false 0).selectFields.length = 12
    ∧ "w.WoTokenCount" ∈ (build_sql_query true false false 0).selectFields
    ∧ "WoTokenCount" ∉ (build_sql_query false false false 0).selectFields
    := by decide

/-- C9 amended: each branch has a single fixed field order and arity,
independent of the other options: 13 fields (with token count) when
`parents_only` is set, 12 fields (without it) otherwise. -/
theorem C9_select_shape (p e w : Bool) (c : Nat) :
    (build_sql_query p e w c).selectFields =
      (if p then select_fields_parents else select_fields_default)
    ∧ select_fields_parents.length = 13
    ∧ select_fields_default.length = 12 := by
  cases p <;> cases e <;> cases w <;>
    exact ⟨rfl, rfl, rfl⟩

/-- C10 counterexample: Python evaluates the `cutoff_date=date.today()`
default once, at module load.  For a module loaded on day 0 and called
on day 1, the defaulted query filters on day 0, and differs from the
query that uses the call date 1. -/
theorem C10_counterexample :
    SqlCond.createdGe 0 ∈ (build_sql_query_defaulted 0).whereConds
    ∧ SqlCond.createdGe 1 ∉ (build_sql_query_defaulted 0).whereConds
    ∧ build_sql_query_defaulted 0 ≠ build_sql_query false false false 1
    := by decide

/-- C10 amended: with all option arguments omitted the query applies
the most restrictive filtering — empty translations excluded, status
above 5 excluded — and its cutoff is the date captured when the module
was loaded (the `def`-time value of `date.today()`), not the date
current at call time. -/
theorem C10_defaults (d : Nat) :
    build_sql_query_defaulted d = build_sql_query false false false d
    ∧ SqlCond.translationNonEmpty ∈
        (build_sql_query_defaulted d).whereConds
    ∧ SqlCond.statusLe5 ∈ (build_sql_query_defaulted d).whereConds
    ∧ SqlCond.createdGe d ∈ (build_sql_query_defaulted d).whereConds := by
  refine ⟨rfl, ?_, ?_, ?_⟩ <;>
  · show _ ∈ (build_sql_query false false false d).whereConds
    rw [whereConds_eq]
    simp
